import Mathlib

/-!
A shallow embedding of the VirtuWear backend (`app.py`): outfit resolution,
try-on request assembly, response extraction, result materialization, and the
`/api/tryon` request handler.  Python strings are modelled as Lean `String`
(operated on through their character lists so that every definition is
kernel-computable), byte buffers as `List Nat`, the garment catalog as the
list of file names in the catalog directory in directory-listing order, and
fallible code as `Except`/`Option`.  Case mapping is modelled for ASCII
(`Char.toLower`), which covers every string the backend compares.
-/

namespace VirtuWear

/-- ASCII-case lowering of a string, character by character;
models Python `str.lower()` on the ASCII strings the backend handles. -/
def lowerStr (s : String) : String :=
  String.mk (s.data.map Char.toLower)

/-- `leadsWith p s`: the character list `p` is an initial segment of `s`;
models Python `str.startswith` / a `name*` glob with a literal `name`. -/
def leadsWith : List Char → List Char → Bool
  | [], _ => true
  | _ :: _, [] => false
  | a :: as, b :: bs => a == b && leadsWith as bs

/-- `strLeadsWith p s`: string `p` is an initial segment of string `s`. -/
def strLeadsWith (p s : String) : Bool :=
  leadsWith p.data s.data

/-- `hasSubChars needle hay`: `needle` occurs contiguously inside `hay`;
models Python `needle in hay` on strings. -/
def hasSubChars (needle : List Char) : List Char → Bool
  | [] => needle.isEmpty
  | c :: rest => leadsWith needle (c :: rest) || hasSubChars needle rest

/-- `strContainsSub s sub`: `sub` occurs contiguously inside `s`. -/
def strContainsSub (s sub : String) : Bool :=
  hasSubChars sub.data s.data

/-- The final path component of a (client-supplied) file name: the characters
after the last `/` or `\` separator; models `pathlib.PurePath(...).name`. -/
def pyNameChars (s : String) : List Char :=
  (s.data.reverse.takeWhile (fun c => c != '/' && c != '\\')).reverse

/-- `pySuffix s` models `pathlib.PurePath(s).suffix`: the extension of the
final path component, i.e. the segment from the last dot on, provided that
dot is neither the first nor the last character of the component;
otherwise the empty string. -/
def pySuffix (s : String) : String :=
  let n := pyNameChars s
  let tailLen := (n.reverse.takeWhile (fun c => c != '.')).length
  if tailLen = n.length then ""
  else
    let i := n.length - 1 - tailLen
    if 0 < i ∧ i < n.length - 1 then String.mk (n.drop i) else ""

/-- `ALLOWED_EXTS` from `app.py`.  The source stores these in a Python set
literal; iteration order over a set is fixed for the lifetime of a process,
and the embedding fixes it to the order of the literal. -/
def ALLOWED_EXTS : List String := [".jpg", ".jpeg", ".png", ".webp"]

/-- `allowed_file` from `app.py`: the lowercased suffix of the file name is
in the allowed-extension set. -/
def allowed_file (filename : String) : Bool :=
  ALLOWED_EXTS.contains (lowerStr (pySuffix filename))

/-- `find_outfit_path` from `app.py`, over a catalog given as the list of
file names in the catalog directory, in directory-listing order:
1. exact name match, accepted only when the extension is allowed;
2. name + each allowed extension, in the fixed enumeration order, first
   existing file wins;
3. first file in listing order whose name starts with `name` (the source
   uses `IMG_DIR.glob(f"\x7bname\x7d*")`; for identifiers without glob
   metacharacters this is literal-prefix matching) and whose extension is
   allowed.
If none match, fail with the `FileNotFoundError` message. -/
def find_outfit_path (catalog : List String) (name : String) : Except String String :=
  if catalog.contains name && allowed_file name then
    Except.ok name
  else
    match ALLOWED_EXTS.find? (fun ext => catalog.contains (name ++ ext)) with
    | some ext => Except.ok (name ++ ext)
    | none =>
      match catalog.find? (fun p => strLeadsWith name p && allowed_file p) with
      | some p => Except.ok p
      | none => Except.error ("Outfit not found: " ++ name)

example : pySuffix "photo.JPG" = ".JPG" := by decide
example : pySuffix ".bashrc" = "" := by decide
example : pySuffix "a/b.c/file" = "" := by decide
example : pySuffix "x.tar.gz" = ".gz" := by decide
example : allowed_file "dress_01.png" = true := by decide
example : allowed_file "dress_01.txt" = false := by decide
example : find_outfit_path ["dress_01.png", "dress_01_alt.png"] "dress_01" =
    Except.ok "dress_01.png" := rfl
example : find_outfit_path ["a.png"] "zzz" =
    Except.error "Outfit not found: zzz" := rfl
example : find_outfit_path ["d.webp", "d.png"] "d" = Except.ok "d.png" := rfl

/-- `google.genai.types.Blob`: inline binary data with a declared MIME type.
Either field may be absent. -/
structure Blob where
  mime_type : Option String
  data : Option (List Nat)

/-- `google.genai.types.Part`: either free text or inline binary data
(each optional, as in the SDK's loosely-typed model). -/
structure Part where
  text : Option String
  inline_data : Option Blob

/-- `google.genai.types.Content`: an ordered sequence of parts. -/
structure Content where
  parts : List Part

/-- A response candidate: its content may be absent. -/
structure Candidate where
  content : Option Content

/-- A `generate_content` response: the candidate sequence may be absent. -/
structure GResponse where
  candidates : Option (List Candidate)

/-- The non-empty inline payload of a part, if any: the source requires
`part.inline_data` to be present and `inline_data.data` to be truthy
(present and non-empty bytes). -/
def partPayload (p : Part) : Option (List Nat) :=
  match p.inline_data with
  | none => none
  | some b =>
    match b.data with
    | none => none
    | some d => if d = [] then none else some d

/-- The inner loop of the extraction in `run_gemini_tryon`: scan the parts in
order and keep the first non-empty inline payload. -/
def scanParts : List Part → Option (List Nat)
  | [] => none
  | p :: rest =>
    match partPayload p with
    | some d => some d
    | none => scanParts rest

/-- The outer loop of the extraction in `run_gemini_tryon`: scan candidates in
order; a candidate with absent content is skipped (`if not content: continue`);
the first candidate whose parts yield a payload wins. -/
def scanCandidates : List Candidate → Option (List Nat)
  | [] => none
  | c :: rest =>
    match c.content with
    | none => scanCandidates rest
    | some ct =>
      match scanParts ct.parts with
      | some d => some d
      | none => scanCandidates rest

/-- The whole extraction stage of `run_gemini_tryon` (`image_bytes` after the
loops): an absent candidate sequence yields nothing, an empty one falls
through the loop. -/
def extract_image (r : GResponse) : Option (List Nat) :=
  match r.candidates with
  | none => none
  | some cs => scanCandidates cs

/-- All parts of a candidate, in order (none when content is absent). -/
def candidateParts (c : Candidate) : List Part :=
  match c.content with
  | none => []
  | some ct => ct.parts

/-- All parts of a response, flattened in traversal order: candidates in
order, then each candidate's parts in order. -/
def responseParts (r : GResponse) : List Part :=
  match r.candidates with
  | none => []
  | some cs => cs.flatMap candidateParts

/-- The failure modes of the try-on pipeline between extraction and
materialization: the explicit `RuntimeError` raised when no image comes back,
and the decode failure `PIL.Image.open` raises on an unreadable payload. -/
inductive TryonFailure where
  | decodeFailure
  | noImageReturned (msg : String)

/-- The message of the `RuntimeError` raised in `run_gemini_tryon` when no
image payload was found; it interpolates the model identifier. -/
def noImageMsg (model : String) : String :=
  "Gemini did not return an image. Model used: " ++ model ++
    ". Check the model ID in AI Studio and your project quota."

/-- The extraction stage followed by the `if image_bytes is None` check of
`run_gemini_tryon`. -/
def extractOrFail (model : String) (r : GResponse) : Except TryonFailure (List Nat) :=
  match extract_image r with
  | some d => Except.ok d
  | none => Except.error (TryonFailure.noImageReturned (noImageMsg model))

/-- The fixed instruction prompt of `run_gemini_tryon`. -/
def base_prompt : String :=
  "You are a professional virtual try-on system.\n" ++
  "Take the person from the first image (user photo) and realistically dress them in the " ++
  "clothing from the second image (outfit image).\n" ++
  "Keep the person\x27s face, pose, body shape, skin tone, lighting, and background natural.\n" ++
  "Make the garment follow the body with realistic folds, shadows, and perspective.\n" ++
  "Return ONLY the final composited try-on image, no borders, no text, no collages."

/-- The prompt actually sent: the base prompt, with the optional styling text
appended as a delimited suffix when it is truthy (non-empty). -/
def full_prompt (extra_prompt : String) : String :=
  if extra_prompt = "" then base_prompt
  else base_prompt ++ "\nExtra styling instructions: " ++ extra_prompt

/-- The `contents` list built in `run_gemini_tryon`: one `Content` whose parts
are the instruction text, the user photo as inline PNG data, and the garment
as inline PNG data, in that order. -/
def build_contents (user_bytes outfit_bytes : List Nat) (extra_prompt : String) :
    List Content :=
  [Content.mk
    [Part.mk (some (full_prompt extra_prompt)) none,
     Part.mk none (some (Blob.mk (some "image/png") (some user_bytes))),
     Part.mk none (some (Blob.mk (some "image/png") (some outfit_bytes)))]]

/-- The inline image payloads of a part list, in order. -/
def imagePayloads (ps : List Part) : List (Option (List Nat)) :=
  (ps.filterMap Part.inline_data).map Blob.data

/-- The fixed output path of the materializer (`OUTPUT_DIR /
"tryon_result_gemini.jpg"`), relative to the project root. -/
def OUTPUT_PATH : String := "output/tryon_result_gemini.jpg"

/-- The fixed JPEG quality setting used when saving the result. -/
def JPEG_QUALITY : Nat := 95

/-- The materialization stage of `run_gemini_tryon` (its last three lines):
decode the payload (`Image.open`, which fails on an undecodable payload),
force three-channel color (`convert("RGB")`), re-encode as JPEG at the fixed
quality, and write the bytes to the fixed output path, overwriting whatever
the file system held there.  The image library is an external collaborator,
so decoding, RGB conversion and JPEG encoding are parameters; the file
system is a map from paths to contents. -/
def materialize_result {Img : Type} (decode : List Nat → Option Img)
    (convert_rgb : Img → Img) (encode_jpeg : Img → Nat → List Nat)
    (fs : String → Option (List Nat)) (payload : List Nat) :
    Except TryonFailure ((String → Option (List Nat)) × String) :=
  match decode payload with
  | none => Except.error TryonFailure.decodeFailure
  | some img =>
    let outBytes := encode_jpeg (convert_rgb img) JPEG_QUALITY
    Except.ok ((fun p => if p = OUTPUT_PATH then some outBytes else fs p), OUTPUT_PATH)

/-- An `/api/tryon` request: the uploaded photo's client-supplied file name
(absent when no `photo` file is in the request), the form fields and the
query parameters, each as association lists in arrival order. -/
structure HttpReq where
  photo : Option String
  form : List (String × String)
  args : List (String × String)

/-- First value bound to a key, as `MultiDict.get` returns it. -/
def listGet (l : List (String × String)) (k : String) : Option String :=
  (l.find? (fun kv => kv.fst == k)).map Prod.snd

/-- Python `a or b` on optional strings: `a` wins unless it is falsy
(absent or empty). -/
def pyOr (a b : Option String) : Option String :=
  match a with
  | some s => if s = "" then b else some s
  | none => b

/-- The outfit identifier lookup of `api_tryon`: form field `outfit`, else
form field `outfit_name`, else query parameter `outfit`. -/
def getOutfitName (req : HttpReq) : Option String :=
  pyOr (listGet req.form "outfit")
    (pyOr (listGet req.form "outfit_name") (listGet req.args "outfit"))

/-- The extension under which the uploaded photo is saved: the lowercased
suffix of the client file name, replaced by `.jpg` when it is empty
(`or ".jpg"`) or not in the allowed set. -/
def upload_ext (filename : String) : String :=
  let e := lowerStr (pySuffix filename)
  let e := if e = "" then ".jpg" else e
  if ALLOWED_EXTS.contains e then e else ".jpg"

/-- The path the uploaded photo is saved to (`UPLOADS_DIR /
f"user_photo\x7bext\x7d"`), relative to the project root. -/
def user_photo_path (filename : String) : String :=
  "uploads/user_photo" ++ upload_ext filename

/-- What the endpoint answers with: `jsonify(\x7b"error": msg\x7d), status`
or `send_file(path, mimetype)`. -/
inductive ApiResp where
  | errorJson (status : Nat) (msg : String)
  | file (path : String) (mime : String)

/-- The rewritten quota message of the boundary handler in `api_tryon`. -/
def quotaMessage : String :=
  "Gemini quota exhausted for this model. " ++
  "Use a cheaper model or add billing in Google AI Studio."

/-- The message rewrite of the boundary handler: `"RESOURCE_EXHAUSTED" in
msg or "quota" in msg.lower()` swaps in the operator-actionable quota
message; any other message is kept as is. -/
def rewriteQuotaMsg (msg : String) : String :=
  if strContainsSub msg "RESOURCE_EXHAUSTED" || strContainsSub (lowerStr msg) "quota" then
    quotaMessage
  else msg

/-- The `api_tryon` route handler.  `catalog` is the catalog directory
listing; `gemini` is the outcome of `run_gemini_tryon` (the saved result
path, or the textual description of the exception it raised), an external
collaborator from the handler's point of view.  The second component of the
result is the path the uploaded photo was saved to, `none` when the handler
returned before the save.  The resolution failure is caught by the inner
`except FileNotFoundError` and mapped to 404; every other failure reaches
the boundary handler, which maps it to 500 after the quota rewrite. -/
def api_tryon (req : HttpReq) (catalog : List String) (gemini : Except String String) :
    ApiResp × Option String :=
  match req.photo with
  | none => (ApiResp.errorJson 400 "Missing \x27photo\x27 file.", none)
  | some filename =>
    match getOutfitName req with
    | none => (ApiResp.errorJson 400 "Missing \x27outfit\x27 parameter.", none)
    | some name =>
      if name = "" then (ApiResp.errorJson 400 "Missing \x27outfit\x27 parameter.", none)
      else
        let upath := user_photo_path filename
        match find_outfit_path catalog name with
        | Except.error e => (ApiResp.errorJson 404 e, some upath)
        | Except.ok _ =>
          match gemini with
          | Except.error msg =>
            (ApiResp.errorJson 500 ("Try-on error: " ++ rewriteQuotaMsg msg), some upath)
          | Except.ok rpath => (ApiResp.file rpath "image/jpeg", some upath)

/-! ### Helper lemmas -/

theorem find?_eq_get_of_first {α : Type} (f : α → Bool) :
    ∀ (l : List α) (i : Nat) (hi : i < l.length),
      f (l.get ⟨i, hi⟩) = true →
      (∀ j (hj : j < l.length), j < i → f (l.get ⟨j, hj⟩) = false) →
      l.find? f = some (l.get ⟨i, hi⟩) := by
  intro l
  induction l with
  | nil => intro i hi; exact absurd hi (by simp)
  | cons a t ih =>
    intro i hi hf hbefore
    cases i with
    | zero =>
      simp only [List.get] at hf ⊢
      simp [List.find?, hf]
    | succ i' =>
      have ha : f a = false := hbefore 0 (by simp) (Nat.succ_pos _)
      have hi' : i' < t.length := by simpa using hi
      have ht : t.find? f = some (t.get ⟨i', hi'⟩) := by
        refine ih i' hi' (by simpa using hf) ?_
        intro j hj hji
        have := hbefore (j + 1) (by simpa using Nat.succ_lt_succ hj) (Nat.succ_lt_succ hji)
        simpa using this
      simp [List.find?, ha, ht]

theorem find_outfit_step1 (catalog : List String) (name : String)
    (h1 : catalog.contains name = true) (h2 : allowed_file name = true) :
    find_outfit_path catalog name = Except.ok name := by
  simp only [find_outfit_path, h1, h2]
  simp

theorem find_outfit_step2 (catalog : List String) (name ext : String)
    (h1 : (catalog.contains name && allowed_file name) = false)
    (h2 : ALLOWED_EXTS.find? (fun e => catalog.contains (name ++ e)) = some ext) :
    find_outfit_path catalog name = Except.ok (name ++ ext) := by
  simp only [find_outfit_path, h1, h2]
  simp

theorem find_outfit_step3 (catalog : List String) (name p : String)
    (h1 : (catalog.contains name && allowed_file name) = false)
    (h2 : ALLOWED_EXTS.find? (fun e => catalog.contains (name ++ e)) = none)
    (h3 : catalog.find? (fun q => strLeadsWith name q && allowed_file q) = some p) :
    find_outfit_path catalog name = Except.ok p := by
  simp only [find_outfit_path, h1, h2, h3]
  simp

theorem find_outfit_fail (catalog : List String) (name : String)
    (h1 : (catalog.contains name && allowed_file name) = false)
    (h2 : ALLOWED_EXTS.find? (fun e => catalog.contains (name ++ e)) = none)
    (h3 : catalog.find? (fun q => strLeadsWith name q && allowed_file q) = none) :
    find_outfit_path catalog name = Except.error ("Outfit not found: " ++ name) := by
  simp only [find_outfit_path, h1, h2, h3]
  simp

/-! ### Claim theorems -/

/-- C1: for every pair of normalized image buffers and every optional styling
text, the built payload is a single content whose parts are exactly
[instruction text, user photo inline image, garment inline image], in that
order and of that length. -/
theorem request_part_ordering (u o : List Nat) (e : String) :
    build_contents u o e =
      [Content.mk
        [Part.mk (some (full_prompt e)) none,
         Part.mk none (some (Blob.mk (some "image/png") (some u))),
         Part.mk none (some (Blob.mk (some "image/png") (some o)))]] ∧
    (build_contents u o e).length = 1 ∧
    ((build_contents u o e).flatMap Content.parts).length = 3 ∧
    imagePayloads ((build_contents u o e).flatMap Content.parts) = [some u, some o] ∧
    ((build_contents u o e).flatMap Content.parts).filterMap Part.text =
      [full_prompt e] := by
  refine ⟨rfl, rfl, rfl, ?_, ?_⟩ <;>
    simp [build_contents, imagePayloads, Part.text, Part.inline_data, Blob.data]

/-- C2: outfit resolution tries exact-name-with-allowed-extension, then
identifier + allowed extension, then prefix match, strictly in that order
with the first match winning; in particular, with a catalog holding
`dress_01.png` and `dress_01_alt.png`, the identifier `dress_01` resolves to
`dress_01.png`, not to the prefix match `dress_01_alt.png`. -/
theorem find_outfit_precedence :
    (∀ catalog name, catalog.contains name = true → allowed_file name = true →
        find_outfit_path catalog name = Except.ok name) ∧
    (∀ catalog name ext, (catalog.contains name && allowed_file name) = false →
        ALLOWED_EXTS.find? (fun e => catalog.contains (name ++ e)) = some ext →
        find_outfit_path catalog name = Except.ok (name ++ ext)) ∧
    (∀ catalog name p, (catalog.contains name && allowed_file name) = false →
        ALLOWED_EXTS.find? (fun e => catalog.contains (name ++ e)) = none →
        catalog.find? (fun q => strLeadsWith name q && allowed_file q) = some p →
        find_outfit_path catalog name = Except.ok p) ∧
    find_outfit_path ["dress_01.png", "dress_01_alt.png"] "dress_01" =
      Except.ok "dress_01.png" :=
  ⟨find_outfit_step1, find_outfit_step2, find_outfit_step3, rfl⟩

/-- Closed instance of `find_outfit_precedence`: each resolution step at a
concrete catalog. -/
theorem find_outfit_precedence_witness :
    find_outfit_path ["red_dress.png"] "red_dress.png" = Except.ok "red_dress.png" ∧
    find_outfit_path ["red_dress.png"] "red_dress" = Except.ok "red_dress.png" ∧
    find_outfit_path ["red_dress_v2.gif", "red_dress_v2.png"] "red" =
      Except.ok "red_dress_v2.png" :=
  ⟨find_outfit_precedence.1 _ _ (by decide) (by decide),
   find_outfit_precedence.2.1 _ _ ".png" (by decide) rfl,
   find_outfit_precedence.2.2.1 _ _ _ (by decide) rfl rfl⟩

/-- C6: resolution step 2 combines the identifier with the allowed extensions
in one fixed enumeration order, and the first combination naming an existing
file wins: if the file at extension index `i` exists and no earlier one does
(and step 1 failed), step 2 returns the index-`i` combination. -/
theorem step2_fixed_extension_order :
    ALLOWED_EXTS = [".jpg", ".jpeg", ".png", ".webp"] ∧
    (∀ catalog name i (hi : i < ALLOWED_EXTS.length),
      (catalog.contains name && allowed_file name) = false →
      catalog.contains (name ++ ALLOWED_EXTS.get ⟨i, hi⟩) = true →
      (∀ j (hj : j < ALLOWED_EXTS.length), j < i →
        catalog.contains (name ++ ALLOWED_EXTS.get ⟨j, hj⟩) = false) →
      find_outfit_path catalog name = Except.ok (name ++ ALLOWED_EXTS.get ⟨i, hi⟩)) ∧
    find_outfit_path ["d.webp", "d.png"] "d" = Except.ok "d.png" := by
  refine ⟨rfl, ?_, rfl⟩
  intro catalog name i hi h1 hf hbefore
  exact find_outfit_step2 catalog name _ h1
    (find?_eq_get_of_first _ ALLOWED_EXTS i hi hf hbefore)

/-- Closed instance of `step2_fixed_extension_order`: with both `d.png` and
`d.webp` present, the earlier extension `.png` (index 2) wins. -/
theorem step2_fixed_extension_order_witness :
    find_outfit_path ["d.webp", "d.png"] "d" =
      Except.ok ("d" ++ ALLOWED_EXTS.get ⟨2, by decide⟩) :=
  step2_fixed_extension_order.2.1 ["d.webp", "d.png"] "d" 2 (by decide) (by decide)
    (by decide) (by intro j hj hji; interval_cases j <;> rfl)

theorem findSome?_append_eq {α β : Type} (l₁ l₂ : List α) (f : α → Option β) :
    (l₁ ++ l₂).findSome? f =
      match l₁.findSome? f with
      | some b => some b
      | none => l₂.findSome? f := by
  induction l₁ with
  | nil => simp
  | cons a t ih =>
    cases h : f a <;> simp [List.findSome?_cons, h, ih]

theorem scanParts_eq_findSome (ps : List Part) :
    scanParts ps = ps.findSome? partPayload := by
  induction ps with
  | nil => rfl
  | cons p t ih =>
    cases h : partPayload p <;> simp [scanParts, List.findSome?_cons, h, ih]

theorem scanCandidates_eq_findSome (cs : List Candidate) :
    scanCandidates cs = (cs.flatMap candidateParts).findSome? partPayload := by
  induction cs with
  | nil => rfl
  | cons c t ih =>
    cases hc : c.content with
    | none => simp [scanCandidates, hc, candidateParts, ih]
    | some ct =>
      rw [List.flatMap_cons, findSome?_append_eq]
      simp only [candidateParts, hc]
      rw [← scanParts_eq_findSome, ← ih]
      cases h : scanParts ct.parts <;> simp [scanCandidates, hc, h]

/-- A response whose first candidate has only a text part and whose second
candidate carries the image payload `[7, 7]`. -/
def twoCandidateResponse : GResponse :=
  GResponse.mk (some
    [Candidate.mk (some (Content.mk [Part.mk (some "no image") none])),
     Candidate.mk (some (Content.mk
       [Part.mk none (some (Blob.mk (some "image/png") (some [7, 7])))]))])

/-- C3: extraction returns the first non-empty inline payload in traversal
order (candidates in order, parts in order within each candidate) — an
`Option`, so never more than one image; and on a response whose first
candidate yields no payload and whose second does, it returns the second
candidate's payload. -/
theorem extract_first_payload :
    (∀ r, extract_image r = (responseParts r).findSome? partPayload) ∧
    (∀ ps, scanParts ps = ps.findSome? partPayload) ∧
    scanParts (candidateParts (Candidate.mk (some (Content.mk
      [Part.mk (some "no image") none])))) = none ∧
    extract_image twoCandidateResponse = some [7, 7] := by
  refine ⟨?_, scanParts_eq_findSome, rfl, rfl⟩
  intro r
  cases hr : r.candidates with
  | none => simp [extract_image, responseParts, hr]
  | some cs => simp [extract_image, responseParts, hr, scanCandidates_eq_findSome]

/-- C4: when extraction finds no payload — in particular when the candidate
sequence is absent or empty — the stage fails with the no-image error, whose
message interpolates the model identifier that was used. -/
theorem no_image_error :
    (∀ model r, extract_image r = none →
        extractOrFail model r = Except.error (TryonFailure.noImageReturned (noImageMsg model))) ∧
    (∀ model, extractOrFail model (GResponse.mk none) =
        Except.error (TryonFailure.noImageReturned (noImageMsg model))) ∧
    (∀ model, extractOrFail model (GResponse.mk (some [])) =
        Except.error (TryonFailure.noImageReturned (noImageMsg model))) ∧
    (∀ model, noImageMsg model =
        "Gemini did not return an image. Model used: " ++ model ++
          ". Check the model ID in AI Studio and your project quota.") := by
  refine ⟨?_, fun _ => rfl, fun _ => rfl, fun _ => rfl⟩
  intro model r h
  simp [extractOrFail, h]

/-- Closed instance of `no_image_error` at a concrete model name and a
response with an absent candidate sequence. -/
theorem no_image_error_witness :
    extractOrFail "gemini-3-pro-image-preview" (GResponse.mk none) =
      Except.error (TryonFailure.noImageReturned
        (noImageMsg "gemini-3-pro-image-preview")) :=
  no_image_error.1 "gemini-3-pro-image-preview" (GResponse.mk none) rfl

/-- C5: a garment identifier matching no catalog file exactly, under no
allowed extension, and as no prefix, makes resolution fail with the
`Outfit not found` error carrying the identifier, and makes the endpoint
answer 404 with that error message as the JSON error body. -/
theorem outfit_not_found_404 :
    ∀ catalog name,
      (catalog.contains name && allowed_file name) = false →
      (∀ e, e ∈ ALLOWED_EXTS → catalog.contains (name ++ e) = false) →
      (∀ p, p ∈ catalog → (strLeadsWith name p && allowed_file p) = false) →
      find_outfit_path catalog name = Except.error ("Outfit not found: " ++ name) ∧
      (∀ req gemini fn, req.photo = some fn →
        getOutfitName req = some name → name ≠ "" →
        (api_tryon req catalog gemini).1 =
          ApiResp.errorJson 404 ("Outfit not found: " ++ name)) := by
  intro catalog name h1 h2 h3
  have hfind : find_outfit_path catalog name =
      Except.error ("Outfit not found: " ++ name) := by
    refine find_outfit_fail catalog name h1 ?_ ?_
    · exact List.find?_eq_none.mpr (fun e he => by simpa using h2 e he)
    · exact List.find?_eq_none.mpr (fun p hp => by simpa using h3 p hp)
  refine ⟨hfind, ?_⟩
  intro req gemini fn hphoto hname hne
  simp only [api_tryon, hphoto, hname]
  rw [if_neg hne, hfind]

/-- Closed instance of `outfit_not_found_404`: the spec's end-to-end
scenario, outfit `nonexistent` against a catalog holding only `a.png`. -/
theorem outfit_not_found_404_witness :
    find_outfit_path ["a.png"] "nonexistent" =
      Except.error "Outfit not found: nonexistent" ∧
    (api_tryon (HttpReq.mk (some "me.jpg") [("outfit", "nonexistent")] [])
        ["a.png"] (Except.ok "r")).1 =
      ApiResp.errorJson 404 "Outfit not found: nonexistent" := by
  have h := outfit_not_found_404 ["a.png"] "nonexistent" (by decide) (by decide) (by decide)
  exact ⟨h.1, h.2 _ (Except.ok "r") "me.jpg" rfl rfl (by decide)⟩

/-- C8: the outfit identifier is accepted from the form field `outfit`, the
form field `outfit_name`, or the query parameter `outfit` (in that order of
precedence, with Python falsiness: an absent or empty value falls through);
a request with a photo but no identifier from any source gets 400 with body
`Missing \x27outfit\x27 parameter.`, and a request without the photo file
gets 400 as well. -/
theorem tryon_param_validation :
    (∀ req catalog gemini, req.photo = none →
        (api_tryon req catalog gemini).1 =
          ApiResp.errorJson 400 "Missing \x27photo\x27 file.") ∧
    (∀ req catalog gemini fn, req.photo = some fn → getOutfitName req = none →
        (api_tryon req catalog gemini).1 =
          ApiResp.errorJson 400 "Missing \x27outfit\x27 parameter.") ∧
    (∀ req catalog gemini fn, req.photo = some fn → getOutfitName req = some "" →
        (api_tryon req catalog gemini).1 =
          ApiResp.errorJson 400 "Missing \x27outfit\x27 parameter.") ∧
    (∀ req s, s ≠ "" → listGet req.form "outfit" = some s →
        getOutfitName req = some s) ∧
    (∀ req s, s ≠ "" →
        (listGet req.form "outfit" = none ∨ listGet req.form "outfit" = some "") →
        listGet req.form "outfit_name" = some s →
        getOutfitName req = some s) ∧
    (∀ req s, s ≠ "" →
        (listGet req.form "outfit" = none ∨ listGet req.form "outfit" = some "") →
        (listGet req.form "outfit_name" = none ∨
          listGet req.form "outfit_name" = some "") →
        listGet req.args "outfit" = some s →
        getOutfitName req = some s) := by
  refine ⟨?_, ?_, ?_, ?_, ?_, ?_⟩
  · intro req catalog gemini h
    simp [api_tryon, h]
  · intro req catalog gemini fn hphoto hname
    simp [api_tryon, hphoto, hname]
  · intro req catalog gemini fn hphoto hname
    simp [api_tryon, hphoto, hname]
  · intro req s hs h
    simp [getOutfitName, pyOr, h, hs]
  · intro req s hs h1 h2
    rcases h1 with h1 | h1 <;> simp [getOutfitName, pyOr, h1, h2, hs]
  · intro req s hs h1 h2 h3
    rcases h1 with h1 | h1 <;> rcases h2 with h2 | h2 <;>
      simp [getOutfitName, pyOr, h1, h2, h3, hs]

/-- Closed instance of `tryon_param_validation`: a request without a photo, a
request with a photo but no identifier from any source, and the three
identifier sources at concrete requests. -/
theorem tryon_param_validation_witness :
    (api_tryon (HttpReq.mk none [("outfit", "d")] []) [] (Except.ok "r")).1 =
      ApiResp.errorJson 400 "Missing \x27photo\x27 file." ∧
    (api_tryon (HttpReq.mk (some "me.png") [] []) [] (Except.ok "r")).1 =
      ApiResp.errorJson 400 "Missing \x27outfit\x27 parameter." ∧
    (api_tryon (HttpReq.mk (some "me.png") [("outfit", "")] [("outfit", "")])
        [] (Except.ok "r")).1 =
      ApiResp.errorJson 400 "Missing \x27outfit\x27 parameter." ∧
    getOutfitName (HttpReq.mk (some "me.png") [("outfit", "d1")] []) = some "d1" ∧
    getOutfitName (HttpReq.mk (some "me.png") [("outfit_name", "d2")] []) = some "d2" ∧
    getOutfitName (HttpReq.mk (some "me.png") [("outfit", "")] [("outfit", "d3")]) =
      some "d3" :=
  ⟨tryon_param_validation.1 _ [] (Except.ok "r") rfl,
   tryon_param_validation.2.1 _ [] (Except.ok "r") "me.png" rfl rfl,
   tryon_param_validation.2.2.1 _ [] (Except.ok "r") "me.png" rfl rfl,
   tryon_param_validation.2.2.2.1 _ "d1" (by decide) rfl,
   tryon_param_validation.2.2.2.2.1 _ "d2" (by decide) (Or.inl rfl) rfl,
   tryon_param_validation.2.2.2.2.2 _ "d3" (by decide) (Or.inr rfl) (Or.inl rfl) rfl⟩

/-- C9: a pipeline failure caught at the request boundary whose text contains
`RESOURCE_EXHAUSTED` (case-sensitively) or `quota` (case-insensitively, via
lowering the message) is answered 500 with the operator-actionable quota
message in place of the upstream text; any other failure is answered 500 with
the failure's own text.  The two concrete rewrites show the case conventions:
lowercase `resource exhausted` is not rewritten, capitalized `Quota` is. -/
theorem quota_rewrite_500 :
    (∀ req catalog fn name msg, req.photo = some fn →
        getOutfitName req = some name → name ≠ "" →
        (∃ p, find_outfit_path catalog name = Except.ok p) →
        (strContainsSub msg "RESOURCE_EXHAUSTED" ||
          strContainsSub (lowerStr msg) "quota") = true →
        (api_tryon req catalog (Except.error msg)).1 =
          ApiResp.errorJson 500 ("Try-on error: " ++ quotaMessage)) ∧
    (∀ req catalog fn name msg, req.photo = some fn →
        getOutfitName req = some name → name ≠ "" →
        (∃ p, find_outfit_path catalog name = Except.ok p) →
        (strContainsSub msg "RESOURCE_EXHAUSTED" ||
          strContainsSub (lowerStr msg) "quota") = false →
        (api_tryon req catalog (Except.error msg)).1 =
          ApiResp.errorJson 500 ("Try-on error: " ++ msg)) ∧
    rewriteQuotaMsg "429 RESOURCE_EXHAUSTED" = quotaMessage ∧
    rewriteQuotaMsg "Quota exceeded for project" = quotaMessage ∧
    rewriteQuotaMsg "resource exhausted" = "resource exhausted" ∧
    quotaMessage = "Gemini quota exhausted for this model. " ++
      "Use a cheaper model or add billing in Google AI Studio." := by
  refine ⟨?_, ?_, rfl, rfl, rfl, rfl⟩ <;>
  · intro req catalog fn name msg hphoto hname hne hfind hquota
    obtain ⟨p, hp⟩ := hfind
    simp only [api_tryon, hphoto, hname]
    rw [if_neg hne, hp]
    simp [rewriteQuotaMsg, hquota]

/-- Closed instance of `quota_rewrite_500`: a quota-marked upstream failure is
rewritten; an unrelated upstream failure keeps its own text. -/
theorem quota_rewrite_500_witness :
    (api_tryon (HttpReq.mk (some "me.png") [("outfit", "red_dress")] [])
        ["red_dress.png"] (Except.error "429 RESOURCE_EXHAUSTED")).1 =
      ApiResp.errorJson 500 ("Try-on error: " ++ quotaMessage) ∧
    (api_tryon (HttpReq.mk (some "me.png") [("outfit", "red_dress")] [])
        ["red_dress.png"] (Except.error "connection reset")).1 =
      ApiResp.errorJson 500 "Try-on error: connection reset" :=
  ⟨quota_rewrite_500.1 _ ["red_dress.png"] "me.png" "red_dress"
      "429 RESOURCE_EXHAUSTED" rfl rfl (by decide) ⟨"red_dress.png", rfl⟩ rfl,
   quota_rewrite_500.2.1 _ ["red_dress.png"] "me.png" "red_dress"
      "connection reset" rfl rfl (by decide) ⟨"red_dress.png", rfl⟩ rfl⟩

/-- C7: a payload that decodes is forced to RGB, re-encoded as JPEG at the
fixed quality 95, written to the single fixed output path — overwriting
whatever was there, leaving every other path untouched — and that path is
returned; a payload that does not decode fails with the decode failure, a
constructor distinct from the no-image failure. -/
theorem materialize_contract :
    (∀ (Img : Type) (decode : List Nat → Option Img) (convert_rgb : Img → Img)
        (encode_jpeg : Img → Nat → List Nat) (fs : String → Option (List Nat))
        (payload : List Nat) (img : Img),
      decode payload = some img →
      ∃ fsOut, materialize_result decode convert_rgb encode_jpeg fs payload =
          Except.ok (fsOut, OUTPUT_PATH) ∧
        fsOut OUTPUT_PATH = some (encode_jpeg (convert_rgb img) JPEG_QUALITY) ∧
        ∀ p, p ≠ OUTPUT_PATH → fsOut p = fs p) ∧
    (∀ (Img : Type) (decode : List Nat → Option Img) (convert_rgb : Img → Img)
        (encode_jpeg : Img → Nat → List Nat) (fs : String → Option (List Nat))
        (payload : List Nat),
      decode payload = none →
      materialize_result decode convert_rgb encode_jpeg fs payload =
        Except.error TryonFailure.decodeFailure) ∧
    (∀ msg, TryonFailure.decodeFailure ≠ TryonFailure.noImageReturned msg) ∧
    JPEG_QUALITY = 95 ∧
    OUTPUT_PATH = "output/tryon_result_gemini.jpg" := by
  refine ⟨?_, ?_, ?_, rfl, rfl⟩
  · intro Img decode convert_rgb encode_jpeg fs payload img h
    refine ⟨fun p => if p = OUTPUT_PATH then
        some (encode_jpeg (convert_rgb img) JPEG_QUALITY) else fs p, ?_, ?_, ?_⟩
    · simp [materialize_result, h]
    · simp
    · intro p hp
      simp [hp]
  · intro Img decode convert_rgb encode_jpeg fs payload h
    simp [materialize_result, h]
  · intro msg h
    exact TryonFailure.noConfusion h

/-- Closed instance of `materialize_contract` with a trivial decoder on the
empty file system: the result lands at the fixed output path. -/
theorem materialize_contract_witness :
    (∃ fsOut, materialize_result (fun _ : List Nat => some 0) (fun n : Nat => n)
        (fun _ _ => [1]) (fun _ => none) [9] = Except.ok (fsOut, OUTPUT_PATH) ∧
      fsOut OUTPUT_PATH = some [1] ∧
      ∀ p, p ≠ OUTPUT_PATH → fsOut p = none) ∧
    materialize_result (fun _ : List Nat => (none : Option Nat)) (fun n => n)
        (fun _ _ => [1]) (fun _ => none) [9] =
      Except.error TryonFailure.decodeFailure :=
  ⟨materialize_contract.1 Nat _ _ _ _ [9] 0 rfl,
   materialize_contract.2.1 Nat _ _ _ _ [9] rfl⟩

/-- C10: the uploaded photo is saved to the fixed path
`uploads/user_photo<ext>`, where `<ext>` is the lowercased suffix of the
client-supplied file name when that suffix is allowed and `.jpg` when it is
missing or not allowed; once the photo and a truthy outfit identifier are
present the handler saves the photo whatever its file name, and never answers
400 — an upload is not rejected for its extension. -/
theorem upload_extension_policy :
    (∀ fn, ALLOWED_EXTS.contains (lowerStr (pySuffix fn)) = true →
        upload_ext fn = lowerStr (pySuffix fn)) ∧
    (∀ fn, ALLOWED_EXTS.contains (lowerStr (pySuffix fn)) = false →
        upload_ext fn = ".jpg") ∧
    (∀ fn, user_photo_path fn = "uploads/user_photo" ++ upload_ext fn) ∧
    (∀ req catalog gemini fn name, req.photo = some fn →
        getOutfitName req = some name → name ≠ "" →
        (api_tryon req catalog gemini).2 = some (user_photo_path fn)) ∧
    (∀ req catalog gemini fn name, req.photo = some fn →
        getOutfitName req = some name → name ≠ "" →
        ∀ s, (api_tryon req catalog gemini).1 ≠ ApiResp.errorJson 400 s) := by
  refine ⟨?_, ?_, fun _ => rfl, ?_, ?_⟩
  · intro fn h
    have hne : lowerStr (pySuffix fn) ≠ "" := by
      intro he
      rw [he] at h
      exact absurd h (by decide)
    have hmem : lowerStr (pySuffix fn) ∈ ALLOWED_EXTS := by simpa using h
    simp [upload_ext, hne, hmem]
  · intro fn h
    by_cases he : lowerStr (pySuffix fn) = ""
    · simp [upload_ext, he]
    · have hmem : lowerStr (pySuffix fn) ∉ ALLOWED_EXTS := by simpa using h
      simp [upload_ext, he, hmem]
  · intro req catalog gemini fn name hphoto hname hne
    simp only [api_tryon, hphoto, hname]
    rw [if_neg hne]
    cases find_outfit_path catalog name with
    | error e => rfl
    | ok p => cases gemini <;> rfl
  · intro req catalog gemini fn name hphoto hname hne s
    simp only [api_tryon, hphoto, hname]
    rw [if_neg hne]
    cases find_outfit_path catalog name with
    | error e => simp
    | ok p => cases gemini <;> simp

/-- Closed instance of `upload_extension_policy`: an allowed upper-case
suffix is kept lowercased, a disallowed suffix falls back to `.jpg`, and a
request whose photo has a disallowed extension is still served (here: a 404
for its unresolvable outfit, not a 400 rejection). -/
theorem upload_extension_policy_witness :
    upload_ext "Selfie.PNG" = ".png" ∧
    upload_ext "document.pdf" = ".jpg" ∧
    (api_tryon (HttpReq.mk (some "document.pdf") [("outfit", "d")] [])
        [] (Except.ok "r")).2 = some (user_photo_path "document.pdf") ∧
    ∀ s, (api_tryon (HttpReq.mk (some "document.pdf") [("outfit", "d")] [])
        [] (Except.ok "r")).1 ≠ ApiResp.errorJson 400 s :=
  ⟨upload_extension_policy.1 "Selfie.PNG" (by decide),
   upload_extension_policy.2.1 "document.pdf" (by decide),
   upload_extension_policy.2.2.2.1
     (HttpReq.mk (some "document.pdf") [("outfit", "d")] []) [] (Except.ok "r")
     "document.pdf" "d" rfl rfl (by decide),
   fun s => upload_extension_policy.2.2.2.2
     (HttpReq.mk (some "document.pdf") [("outfit", "d")] []) [] (Except.ok "r")
     "document.pdf" "d" rfl rfl (by decide) s⟩

end VirtuWear
